import Mathlib

/-!
Verification development for the Form-Corrector repository.

The motion-analysis pipeline is shallow-embedded here:

* `RepCounting`       — `src/services/repProgression.js`, `RepCountingService`
  (countReps, extractMetric, smoothData, findPeaksAndValleys,
  filterSignificantPoints, identifyReps, calculateAngle).
* `RepProgression`    — `src/services/repProgression.js`, `RepProgressionService`
  (analyzeRepProgression, extractMetricProgression, identifyPhases,
  analyzePhaseQuality, calculateVelocities, calculateSmoothness,
  calculateSymmetry, analyzeTempoControl).
* `PoseAnalysis`      — `src/services/poseAnalysis.js` (calculateAngle,
  calculateMidBack, calculateBackRounding, calculateHipPosition, the five
  per-exercise analyzers, analyzeExercise, getExerciseById, validateForm)
  together with the rule catalog of `src/config/exercises.js`.
* `AnalyzeVideo`      — the in-page pipeline steps of `analyzeVideo`
  (batch splitting for workers, error aggregation, scoring, and the
  per-repetition slicing handed to the progression analyzer).

JavaScript numbers are modelled by `ℚ` where the code is purely arithmetic
(so that the development stays executable) and by `ℝ` where trigonometry is
involved (`Math.atan2` / `Math.PI`).  `null` / `undefined` are modelled by
`Option`.  Deviations forced by the modelling are stated in doc comments at
the definition they concern.
-/

namespace FormCorrector

/-- `Math.round q` for a finite number: round half toward `+∞`
(`Math.round(x) = ⌊x + 1/2⌋`), returned as a rational that is an integer. -/
def jsRound (q : ℚ) : ℚ := (⌊q + 1/2⌋ : ℤ)

namespace RepCounting

/-- One MediaPipe landmark as consumed by `RepCountingService.extractMetric`:
`x`/`y` coordinates plus an optional `visibility` score (`none` models an
absent/`undefined` property). -/
structure Landmark where
  x : ℚ
  y : ℚ
  visibility : Option ℚ
deriving DecidableEq, Repr

/-- One form-validation issue, `{id, severity}` (the purely textual fields
`name`, `description`, `correction`, `affectedJoints` carry no behaviour
downstream and are not modelled). -/
structure FormError where
  id : String
  severity : String
deriving DecidableEq, Repr

/-- One element of `validFrameResults` as consumed by `countReps` and the
error-aggregation step of `analyzeVideo`: a capture time, the (possibly
`null`) landmark list and the frame's validation errors. -/
structure FrameResult where
  time : ℚ
  landmarks : Option (List Landmark)
  errors : List FormError
deriving DecidableEq, Repr

/-- One entry of the metric series `{index, time, value}` produced by
`RepCountingService.extractMetric`; `value = none` models `null`. -/
structure MetricPoint where
  index : ℕ
  time : ℚ
  value : Option ℚ
deriving DecidableEq, Repr

/-- One extremum `{index, time, value}` found by `findPeaksAndValleys`. -/
structure ExtPoint where
  index : ℕ
  time : ℚ
  value : ℚ
deriving DecidableEq, Repr

/-- One repetition range as pushed by `identifyReps`.  The middle extremum is
called `bottomIndex`/`bottomTime` for direction `"down"` exercises and
`topIndex`/`topTime` for direction `"up"` ones; both are modelled by the
single field pair `midIndex`/`midTime`. -/
structure RepRange where
  startIndex : ℕ
  midIndex : ℕ
  endIndex : ℕ
  startTime : ℚ
  midTime : ℚ
  endTime : ℚ
  duration : ℚ
  rangeOfMotion : ℚ
deriving DecidableEq, Repr

/-- The result object of `countReps`.  The two early returns
(`frames.length < 5`, unknown exercise id) produce an object without the
`peakFrames`/`valleyFrames` properties; those properties are therefore
modelled as `Option`s, `none` meaning absent. -/
structure RepCountResult where
  count : ℕ
  repRanges : List RepRange
  peakFrames : Option (List ExtPoint)
  valleyFrames : Option (List ExtPoint)
  metricData : List MetricPoint
deriving DecidableEq, Repr

/-- Per-exercise entry of `this.repThresholds`. -/
structure RepConfig where
  metric : String
  fallbackMetric : String
  threshold : ℚ
  direction : String
deriving DecidableEq, Repr

/-- The `this.repThresholds` table of `RepCountingService`, as a lookup on the
exercise id (JS object property access). -/
def repThresholds (exerciseId : String) : Option RepConfig :=
  if exerciseId = "squat" then some ⟨"hipHeight", "kneeAngle", 8/100, "down"⟩
  else if exerciseId = "deadlift" then some ⟨"hipHeight", "kneeAngle", 10/100, "down"⟩
  else if exerciseId = "overhead_press" then some ⟨"wristHeight", "shoulderHeight", 12/100, "up"⟩
  else if exerciseId = "bench_press" then some ⟨"wristHeight", "elbowHeight", 10/100, "down"⟩
  else if exerciseId = "pull_up" then some ⟨"shoulderHeight", "chinHeight", 15/100, "up"⟩
  else none

/-- `landmarks[i]?.visibility > t`: `false` when the landmark or its
`visibility` property is absent (in JS, `undefined > t` is `false`). -/
def visOver (l : Option Landmark) (t : ℚ) : Bool :=
  match l with
  | some lm =>
      match lm.visibility with
      | some v => decide (t < v)
      | none => false
  | none => false

/-- Default landmark used to realise an index access whose bounds have
already been checked by the surrounding code. -/
def dLm : Landmark := ⟨0, 0, none⟩

/-- `RepCountingService.extractMetric`.  The `kneeAngle` branch calls
`this.calculateAngle`, which uses the transcendental `Math.atan2`; exact
rational arithmetic cannot express it, so the angle routine is passed in as
the abstract parameter `angleFn` (see `RepCounting.calculateAngle` for the
real-valued model of that routine).  None of the verified claims evaluates
this branch. -/
def extractMetric (angleFn : Landmark → Landmark → Landmark → ℚ)
    (frames : List FrameResult) (metricType : String) : List MetricPoint :=
  frames.enum.map (fun p =>
    let index := p.1
    let frame := p.2
    match frame.landmarks with
    | none => ⟨index, frame.time, none⟩
    | some lms =>
      if lms.length < 33 then ⟨index, frame.time, none⟩
      else
        let value : Option ℚ :=
          if metricType = "hipHeight" then
            if visOver (lms.get? 23) (3/10) && visOver (lms.get? 24) (3/10) then
              some (((lms.getD 23 dLm).y + (lms.getD 24 dLm).y) / 2)
            else none
          else if metricType = "wristHeight" then
            if visOver (lms.get? 15) (3/10) && visOver (lms.get? 16) (3/10) then
              some (((lms.getD 15 dLm).y + (lms.getD 16 dLm).y) / 2)
            else none
          else if metricType = "shoulderHeight" then
            if visOver (lms.get? 11) (3/10) && visOver (lms.get? 12) (3/10) then
              some (((lms.getD 11 dLm).y + (lms.getD 12 dLm).y) / 2)
            else none
          else if metricType = "elbowHeight" then
            if visOver (lms.get? 13) (3/10) && visOver (lms.get? 14) (3/10) then
              some (((lms.getD 13 dLm).y + (lms.getD 14 dLm).y) / 2)
            else none
          else if metricType = "chinHeight" then
            if visOver (lms.get? 0) (3/10) then some ((lms.getD 0 dLm).y)
            else none
          else if metricType = "kneeAngle" then
            match lms.get? 23, lms.get? 25, lms.get? 27 with
            | some a, some b, some c => some (angleFn a b c / 180)
            | _, _, _ => none
          else none
        ⟨index, frame.time, value⟩)

/-- `RepCountingService.smoothData`: centred moving average whose window
shrinks at the boundaries.  `halfWindow = Math.floor(windowSize / 2)`;
`Nat` subtraction realises `Math.max(0, i - halfWindow)`. -/
def smoothData (data : List ℚ) (windowSize : ℕ) : List ℚ :=
  let halfWindow := windowSize / 2
  (List.range data.length).map (fun i =>
    let lo := i - halfWindow
    let hi := min (data.length - 1) (i + halfWindow)
    let window := (data.drop lo).take (hi + 1 - lo)
    window.sum / window.length)

/-- Default metric point for bounds-checked index accesses. -/
def dMp : MetricPoint := ⟨0, 0, none⟩

/-- `RepCountingService.filterSignificantPoints`: walk all extrema in index
order and drop any extremum whose value differs from the last kept one by
less than `minAmplitude`; then split the kept points back into peaks and
valleys. -/
def filterSignificantPoints (peaks valleys : List ExtPoint) (minAmplitude : ℚ) :
    List ExtPoint × List ExtPoint :=
  let allPoints := List.insertionSort (fun a b => a.index ≤ b.index) (peaks ++ valleys)
  let filtered := (allPoints.foldl (fun (acc : List ExtPoint × Option ExtPoint) point =>
      match acc.2 with
      | none => (acc.1 ++ [point], some point)
      | some lastPoint =>
          if minAmplitude ≤ |point.value - lastPoint.value| then
            (acc.1 ++ [point], some point)
          else acc) ([], none)).1
  (filtered.filter (fun p => peaks.any (fun pk => pk.index = p.index)),
   filtered.filter (fun p => valleys.any (fun v => v.index = p.index)))

/-- `RepCountingService.findPeaksAndValleys`: drop `null` values, smooth with
window 5, and collect strict local extrema of the smoothed series over the
interior indices `2 ≤ i < length - 2`, with the `±2` neighbourhood checked
non-strictly; finally filter by `minAmplitude`. -/
def findPeaksAndValleys (data : List MetricPoint) (minAmplitude : ℚ) :
    List ExtPoint × List ExtPoint :=
  let validData := data.filter (fun d => d.value.isSome)
  if validData.length < 5 then ([], [])
  else
    let smoothed := smoothData (validData.map (fun d => d.value.getD 0)) 5
    let n := smoothed.length
    let idxs := (List.range n).filter (fun i => decide (2 ≤ i) && decide (i + 2 < n))
    let at_ := fun (i : ℕ) => smoothed.getD i 0
    let peaks := idxs.filterMap (fun i =>
      if at_ (i - 1) < at_ i && at_ (i + 1) < at_ i
          && at_ (i - 2) ≤ at_ i && at_ (i + 2) ≤ at_ i then
        some ⟨(validData.getD i dMp).index, (validData.getD i dMp).time, at_ i⟩
      else none)
    let valleys := idxs.filterMap (fun i =>
      if at_ i < at_ (i - 1) && at_ i < at_ (i + 1)
          && at_ i ≤ at_ (i - 2) && at_ i ≤ at_ (i + 2) then
        some ⟨(validData.getD i dMp).index, (validData.getD i dMp).time, at_ i⟩
      else none)
    filterSignificantPoints peaks valleys minAmplitude

/-- Default extremum for bounds-checked index accesses. -/
def dXp : ExtPoint := ⟨0, 0, 0⟩

/-- `RepCountingService.identifyReps`: sort all extrema chronologically and
scan every consecutive triple; direction `"down"` accepts
valley→peak→valley, any other direction accepts peak→valley→peak.
`frameMap.get(i) || frames[0]` is modelled by `getD` with `frames[0]` as the
fallback (the callers guarantee a non-empty frame list). -/
def identifyReps (peaks valleys : List ExtPoint) (direction : String)
    (frames : List FrameResult) : List RepRange :=
  let allPoints := List.insertionSort (fun a b => a.index ≤ b.index) (peaks ++ valleys)
  if allPoints.length < 3 then []
  else
    let frameAt := fun (i : ℕ) => frames.getD i (frames.headD ⟨0, none, []⟩)
    let idxs := List.range (allPoints.length - 2)
    if direction = "down" then
      idxs.filterMap (fun i =>
        let p1 := allPoints.getD i dXp
        let p2 := allPoints.getD (i + 1) dXp
        let p3 := allPoints.getD (i + 2) dXp
        if valleys.any (fun v => v.index = p1.index)
            && peaks.any (fun p => p.index = p2.index)
            && valleys.any (fun v => v.index = p3.index) then
          some ⟨p1.index, p2.index, p3.index,
                (frameAt p1.index).time, (frameAt p2.index).time, (frameAt p3.index).time,
                (frameAt p3.index).time - (frameAt p1.index).time,
                |p1.value - p2.value|⟩
        else none)
    else
      idxs.filterMap (fun i =>
        let p1 := allPoints.getD i dXp
        let p2 := allPoints.getD (i + 1) dXp
        let p3 := allPoints.getD (i + 2) dXp
        if peaks.any (fun p => p.index = p1.index)
            && valleys.any (fun v => v.index = p2.index)
            && peaks.any (fun p => p.index = p3.index) then
          some ⟨p1.index, p2.index, p3.index,
                (frameAt p1.index).time, (frameAt p2.index).time, (frameAt p3.index).time,
                (frameAt p3.index).time - (frameAt p1.index).time,
                |p2.value - p1.value|⟩
        else none)

/-- `RepCountingService.countReps`.  `Math.max(...values)` /
`Math.min(...values)` over an empty spread give `-∞`/`+∞`, in which case
`range * 0.15 = -∞` and `Math.max(threshold, -∞)` is the configured static
threshold; this is folded into the `match` on `max?`/`min?`.  `angleFn`
abstracts `this.calculateAngle` (see `extractMetric`). -/
def countReps (angleFn : Landmark → Landmark → Landmark → ℚ)
    (frames : List FrameResult) (exerciseId : String) : RepCountResult :=
  if frames.length < 5 then ⟨0, [], none, none, []⟩
  else
    match repThresholds exerciseId with
    | none => ⟨0, [], none, none, []⟩
    | some config =>
      let metricData0 := extractMetric angleFn frames config.metric
      let validDataPoints := metricData0.filter
        (fun d => d.value.isSome && decide (d.value ≠ some 0))
      let metricData :=
        if (validDataPoints.length : ℚ) < (frames.length : ℚ) * (1/2) then
          extractMetric angleFn frames config.fallbackMetric
        else metricData0
      let vals := metricData.filterMap
        (fun d => d.value.bind (fun v => if v = 0 then none else some v))
      let adaptiveThreshold :=
        match vals.max?, vals.min? with
        | some mx, some mn => max config.threshold ((mx - mn) * (15/100))
        | _, _ => config.threshold
      let pv := findPeaksAndValleys metricData adaptiveThreshold
      let repRanges := identifyReps pv.1 pv.2 config.direction frames
      ⟨repRanges.length, repRanges, some pv.1, some pv.2, metricData⟩

/-- Rational samples of `cos (2π k / 12)` (with `cos (π/6) ≈ 433/500`), used
to build the synthetic sinusoidal test series for the repetition counter. -/
def cosTable (k : ℕ) : ℚ :=
  [1, 433/500, 1/2, 0, -1/2, -433/500, -1, -433/500, -1/2, 0, 1/2, 433/500].getD (k % 12) 0

/-- Synthetic hip height at sample `i`: a sinusoid centred at `0.525` with
amplitude `0.125` (hip-Y between `0.40` standing and `0.65` squatted), in
the standing position at `i = 3` and completing three full cycles by
`i = 39` (12 samples per cycle). -/
def sinusoidY (i : ℕ) : ℚ := 21/40 - (1/8) * cosTable (i + 9)

/-- A frame at time `t` whose 33 landmarks place both hips (indices 23/24)
at height `y` with full visibility. -/
def mkSquatFrame (t y : ℚ) : FrameResult :=
  ⟨t, some (List.replicate 23 dLm ++ [⟨0, y, some 1⟩, ⟨0, y, some 1⟩] ++ List.replicate 8 dLm), []⟩

/-- The synthetic sinusoidal squat video for the repetition counter: 43
frames at 10 fps tracing three full hip-height cycles, with two to three
samples of margin before the first and after the last standing position. -/
def sineFrames : List FrameResult :=
  (List.range 43).map (fun (i : ℕ) => mkSquatFrame ((i : ℚ) / 10) (sinusoidY i))

end RepCounting

namespace RepProgression

/-- One analyzed frame as consumed by `RepProgressionService`: the capture
time together with the per-frame feature fields the service reads
(`kneeAngle`, `hipAngle`, `backAngle`, `elbowAngle`, `asymmetry`); `none`
models an absent or `null` feature. -/
structure ProgFrame where
  time : ℚ
  kneeAngle : Option ℚ
  hipAngle : Option ℚ
  backAngle : Option ℚ
  elbowAngle : Option ℚ
  asymmetry : Option ℚ
deriving DecidableEq, Repr

/-- One entry `{index, time, value, frame}` of the metric progression built
by `extractMetricProgression`. -/
structure ProgPoint where
  index : ℕ
  time : ℚ
  value : Option ℚ
  frame : ProgFrame
deriving DecidableEq, Repr

/-- Per-exercise entry of `this.exercisePatterns`; the fields the service's
code actually reads (`phases`, `primaryMetric`).  The remaining catalog data
(`optimalRange`, `phaseRanges`, `keyMetrics`) is configuration that no
modelled operation consumes. -/
structure Pattern where
  phases : List String
  primaryMetric : String
deriving DecidableEq, Repr

/-- The `this.exercisePatterns` table of `RepProgressionService`. -/
def exercisePatterns (exerciseId : String) : Option Pattern :=
  if exerciseId = "squat" then some ⟨["bottom", "ascent", "top", "descent"], "kneeAngle"⟩
  else if exerciseId = "deadlift" then some ⟨["bottom", "ascent", "top", "descent"], "backAngle"⟩
  else if exerciseId = "overhead_press" then some ⟨["bottom", "drive", "overhead", "descent"], "elbowAngle"⟩
  else if exerciseId = "bench_press" then some ⟨["top", "descent", "bottom", "ascent"], "elbowAngle"⟩
  else if exerciseId = "pull_up" then some ⟨["bottom", "ascent", "top", "descent"], "elbowAngle"⟩
  else none

/-- The dynamic feature access `frame[metric]` used by the service (the
`switch` of `extractMetricProgression` and the bracket access of
`calculateVelocities` read the same five fields). -/
def metricOf (frame : ProgFrame) (metric : String) : Option ℚ :=
  if metric = "kneeAngle" then frame.kneeAngle
  else if metric = "hipAngle" then frame.hipAngle
  else if metric = "backAngle" then frame.backAngle
  else if metric = "elbowAngle" then frame.elbowAngle
  else if metric = "asymmetry" then frame.asymmetry
  else none

/-- `RepProgressionService.extractMetricProgression`. -/
def extractMetricProgression (frames : List ProgFrame) (metric : String) :
    List ProgPoint :=
  frames.enum.map (fun p => ⟨p.1, p.2.time, metricOf p.2 metric, p.2⟩)

/-- Per-phase data of `identifyPhases`; only `frameIndices` is ever filled
in (`startValue`, `endValue`, `duration`, `peakDeviation` keep their
initial values). -/
structure PhaseData where
  frameIndices : List ℕ
  startValue : Option ℚ
  endValue : Option ℚ
  duration : ℚ
  peakDeviation : ℚ
deriving DecidableEq, Repr

/-- Append a frame index to the named phase of the accumulator
(`phases[phase].frameIndices.push(i)`). -/
def pushPhaseIndex (acc : List (String × List ℕ)) (phase : String) (i : ℕ) :
    List (String × List ℕ) :=
  acc.map (fun p => if p.1 = phase then (p.1, p.2 ++ [i]) else p)

/-- `RepProgressionService.identifyPhases`: walk the metric progression from
index 1, skip `null` values, and advance the current phase (cyclically
through `pattern.phases`) whenever the direction of travel flips; the
initial direction is "decreasing" and the initial reference value is
`metricProgression[0]?.value || 0`. -/
def identifyPhases (metricProgression : List ProgPoint) (pattern : Pattern) :
    List (String × PhaseData) :=
  let init : List (String × List ℕ) := pattern.phases.map (fun p => (p, []))
  let state0 : ℕ × ℚ × Bool := (0, ((metricProgression.head?).bind (fun p => p.value)).getD 0, true)
  let final := (metricProgression.enum.drop 1).foldl
    (fun (st : (ℕ × ℚ × Bool) × List (String × List ℕ)) ip =>
      match ip.2.value with
      | none => st
      | some current =>
          let currentPhaseIndex := st.1.1
          let previousValue := st.1.2.1
          let isDecreasing := st.1.2.2
          let isMovingDown := decide (current < previousValue)
          let next :=
            if isMovingDown ≠ isDecreasing then
              ((currentPhaseIndex + 1) % pattern.phases.length, isMovingDown)
            else (currentPhaseIndex, isDecreasing)
          let phase := pattern.phases.getD next.1 ""
          ((next.1, current, next.2), pushPhaseIndex st.2 phase ip.1))
    (state0, init)
  final.2.map (fun p => (p.1, ⟨p.2, none, none, 0, 0⟩))

/-- `phaseName.includes(pat)` (substring test) on character lists. -/
def charListHasPfx : List Char → List Char → Bool
  | [], _ => true
  | _ :: _, [] => false
  | a :: as, b :: bs => a = b && charListHasPfx as bs

/-- Substring occurrence test used to model `String.prototype.includes`. -/
def charListIncl (sub : List Char) : List Char → Bool
  | [] => charListHasPfx sub []
  | a :: t => charListHasPfx sub (a :: t) || charListIncl sub t

/-- `s.includes(pat)`. -/
def jsIncludes (s pat : String) : Bool := charListIncl pat.toList s.toList

/-- `RepProgressionService.calculateVelocities`: first differences of the
dynamically accessed metric over consecutive frames, skipping pairs where
either value is absent. -/
def calculateVelocities (frames : List ProgFrame) (metric : String) : List ℚ :=
  (List.zipWith (fun f2 f1 => (metricOf f2 metric, metricOf f1 metric)) frames.tail frames).filterMap
    (fun p =>
      match p.1, p.2 with
      | some current, some previous => some (current - previous)
      | _, _ => none)

/-- One phase-scoped issue pushed by `analyzePhaseQuality` (textual fields
are omitted as in `FormError`). -/
structure PhaseIssue where
  phase : String
  type : String
  severity : String
deriving DecidableEq, Repr

/-- `RepProgressionService.analyzePhaseQuality`.  `Math.max(...)` of an
empty velocity list is `-∞`, which fails the `> 20` test and passes the
`< 3` test; this is the `none` case of `max?`. -/
def analyzePhaseQuality (phaseFrames : List ProgFrame) (phaseName : String)
    (pattern : Pattern) : List PhaseIssue :=
  let issues1 :=
    if jsIncludes phaseName "descent" || jsIncludes phaseName "descent" then
      match ((calculateVelocities phaseFrames pattern.primaryMetric).map (fun v => |v|)).max? with
      | some m => if 20 < m then [⟨phaseName, "uncontrolledMovement", "high"⟩] else []
      | none => []
    else []
  let issues2 :=
    if jsIncludes phaseName "ascent" || jsIncludes phaseName "drive" then
      match ((calculateVelocities phaseFrames pattern.primaryMetric).map (fun v => |v|)).max? with
      | some m => if m < 3 then [⟨phaseName, "slowConcentric", "low"⟩] else []
      | none => [⟨phaseName, "slowConcentric", "low"⟩]
    else []
  issues1 ++ issues2

/-- `RepProgressionService.calculateSmoothness`: with fewer than 3 valid
points the score is 100; otherwise 100 minus 5 times the total absolute
second difference divided by the number of first differences
(`velocities.length`), floored at 0 and rounded. -/
def calculateSmoothness (metricProgression : List ProgPoint) : ℚ :=
  let validPoints := metricProgression.filter (fun p => p.value.isSome)
  if validPoints.length < 3 then 100
  else
    let vals := validPoints.map (fun p => p.value.getD 0)
    let velocities := List.zipWith (fun b a => b - a) vals.tail vals
    let accelerations := List.zipWith (fun v2 v1 => |v2 - v1|) velocities.tail velocities
    let totalAcceleration := accelerations.foldl (fun (a : ℚ) b => a + b) 0
    let avgAcceleration := totalAcceleration / velocities.length
    jsRound (max 0 (100 - avgAcceleration * 5))

/-- `RepProgressionService.calculateSymmetry`. -/
def calculateSymmetry (frames : List ProgFrame) : ℚ :=
  let asymmetries := frames.filterMap (fun f => f.asymmetry)
  if asymmetries.length = 0 then 100
  else
    let avgAsymmetry := (asymmetries.foldl (fun (a : ℚ) b => a + b) 0) / asymmetries.length
    jsRound (max 0 (100 - avgAsymmetry * 10))

/-- `RepProgressionService.analyzeTempoControl`. -/
def analyzeTempoControl (phases : List (String × PhaseData)) : ℚ :=
  let descentPhases := phases.filter (fun p => jsIncludes p.1 "descent")
  let ascentPhases := phases.filter (fun p => jsIncludes p.1 "ascent" || jsIncludes p.1 "drive")
  let totalDescentFrames := (descentPhases.map (fun p => p.2.frameIndices.length)).sum
  let totalAscentFrames := (ascentPhases.map (fun p => p.2.frameIndices.length)).sum
  if totalDescentFrames = 0 ∨ totalAscentFrames = 0 then 50
  else
    let ratio := (totalDescentFrames : ℚ) / (totalAscentFrames : ℚ)
    let idealRatio : ℚ := 7/4
    let deviation := |ratio - idealRatio| / idealRatio
    jsRound (max 0 (100 - deviation * 100))

/-- The quality sub-scores of one rep analysis. -/
structure Quality where
  smoothness : ℚ
  symmetry : ℚ
  controlledTempo : ℚ
  consistencyAcrossReps : ℚ
deriving DecidableEq, Repr

/-- The analysis object returned by `analyzeRepProgression` for a known
exercise id. -/
structure RepAnalysis where
  exerciseId : String
  totalDuration : ℚ
  frameCount : ℕ
  phases : List (String × PhaseData)
  issues : List PhaseIssue
  quality : Quality
  metrics : List (String × List ProgPoint)
deriving DecidableEq, Repr

/-- Default frame for the bounds-checked `repFrames[i]` accesses (the
indices stored by `identifyPhases` are always in range). -/
def dPf : ProgFrame := ⟨0, none, none, none, none, none⟩

/-- `RepProgressionService.analyzeRepProgression`: `null` for an unknown
exercise id, otherwise the phase segmentation, phase-scoped issues and
quality scores over the given rep frames. -/
def analyzeRepProgression (repFrames : List ProgFrame) (exerciseId : String) :
    Option RepAnalysis :=
  match exercisePatterns exerciseId with
  | none => none
  | some pattern =>
      let metricProgression := extractMetricProgression repFrames pattern.primaryMetric
      let phases := identifyPhases metricProgression pattern
      let issues := phases.foldl
        (fun acc p =>
          if 0 < p.2.frameIndices.length then
            acc ++ analyzePhaseQuality (p.2.frameIndices.map (fun i => repFrames.getD i dPf))
              p.1 pattern
          else acc) []
      some
        { exerciseId := exerciseId
          totalDuration := if 0 < repFrames.length then ((repFrames.getLast?).map (fun f => f.time)).getD 0 else 0
          frameCount := repFrames.length
          phases := phases
          issues := issues
          quality := ⟨calculateSmoothness metricProgression, calculateSymmetry repFrames,
                      analyzeTempoControl phases, 0⟩
          metrics := [(pattern.primaryMetric, metricProgression)] }

end RepProgression

/-- A 2-D point with real coordinates (the coordinate pairs fed to
`calculateAngle`; JS `number` is modelled by `ℝ` here because the angle
computation is trigonometric). -/
structure Pt where
  x : ℝ
  y : ℝ

/-- `Math.atan2 y x`, modelled by the argument of the complex number
`x + y·i` (range `(-π, π]`, `atan2 0 0 = 0` — as in JS for positive zero). -/
noncomputable def atan2 (y x : ℝ) : ℝ := Complex.arg ⟨x, y⟩

namespace RepCounting

/-- `RepCountingService.calculateAngle` (the rep-counting copy of the angle
routine): identical heading arithmetic, but the guard for a missing input
point returns `180`, not `0`.  This real-valued definition models the
routine's numeric behaviour; `extractMetric` abstracts it as `angleFn`
because `ℚ` cannot express `atan2`. -/
noncomputable def calculateAngle (a b c : Option Pt) : ℝ :=
  match a, b, c with
  | some a, some b, some c =>
      let radians := atan2 (c.y - b.y) (c.x - b.x) - atan2 (a.y - b.y) (a.x - b.x)
      let angle := |radians * 180 / Real.pi|
      if 180 < angle then 360 - angle else angle
  | _, _, _ => 180

end RepCounting

namespace PoseAnalysis

/-- `PoseAnalysisService.calculateAngle`: the sentinel `0` for any missing
input point, otherwise the folded absolute difference of the two `atan2`
headings in degrees.  Over `ℝ` every present coordinate is finite, so the
JS distinction between a missing point and a `NaN` coordinate collapses to
presence (`Option`). -/
noncomputable def calculateAngle (a b c : Option Pt) : ℝ :=
  match a, b, c with
  | some a, some b, some c =>
      let radians := atan2 (c.y - b.y) (c.x - b.x) - atan2 (a.y - b.y) (a.x - b.x)
      let angle := |radians * 180 / Real.pi|
      if 180 < angle then 360 - angle else angle
  | _, _, _ => 0

/-- One MediaPipe landmark (`x`, `y` always present on detector output;
`z` and `visibility` optional). -/
structure Lm where
  x : ℝ
  y : ℝ
  z : Option ℝ
  visibility : Option ℝ

/-- The coordinate pair of a landmark, as consumed by `calculateAngle`. -/
def Lm.toPt (l : Lm) : Pt := ⟨l.x, l.y⟩

/-- `PoseAnalysisService.isUsableLandmark`: the landmark is present and its
`x`/`y` are finite numbers.  In the `ℝ` model every coordinate is finite,
so usability reduces to presence. -/
def isUsableLandmark (l : Option Lm) : Bool := l.isSome

/-- Classical decision of `a < b` on `ℝ`, used to model JS numeric
comparisons inside rule predicates (never evaluated computationally). -/
noncomputable def rltb (a b : ℝ) : Bool := @decide (a < b) (Classical.propDecidable _)

/-- Classical decision of `a ≠ b` on `ℝ` (JS truthiness of a number). -/
noncomputable def rneb (a b : ℝ) : Bool := @decide (a ≠ b) (Classical.propDecidable _)

/-- `ToNumber` coercion applied to a possibly-`null` angle value before a
JS relational comparison (`null` compares as `0`). -/
def jsn (o : Option ℝ) : ℝ := o.getD 0

/-- The synthetic mid-back point produced by `calculateMidBack`. -/
structure MidBack where
  x : ℝ
  y : ℝ
  z : ℝ
  visibility : ℝ

/-- `PoseAnalysisService.calculateMidBack`. -/
noncomputable def calculateMidBack (landmarks : List Lm) : Option MidBack :=
  match landmarks.get? 11, landmarks.get? 12, landmarks.get? 23, landmarks.get? 24 with
  | some ls, some rs, some lh, some rh =>
      let msx := (ls.x + rs.x) / 2
      let msy := (ls.y + rs.y) / 2
      let msz := (ls.z.getD 0 + rs.z.getD 0) / 2
      let mhx := (lh.x + rh.x) / 2
      let mhy := (lh.y + rh.y) / 2
      let mhz := (lh.z.getD 0 + rh.z.getD 0) / 2
      let v := fun (lm : Lm) => lm.visibility.getD 1
      some ⟨mhx + (msx - mhx) * (4/10), mhy + (msy - mhy) * (4/10),
            mhz + (msz - mhz) * (4/10), min (min (v ls) (v rs)) (min (v lh) (v rh))⟩
  | _, _, _, _ => none

/-- The record returned by `calculateBackRounding`. -/
structure BackRounding where
  midBack : MidBack
  zDeviation : ℝ
  xDeviation : ℝ
  isRounded : Bool

/-- `PoseAnalysisService.calculateBackRounding`. -/
noncomputable def calculateBackRounding (landmarks : List Lm) : Option BackRounding :=
  match landmarks.get? 11, landmarks.get? 12, landmarks.get? 23, landmarks.get? 24 with
  | some ls, some rs, some lh, some rh =>
      match calculateMidBack landmarks with
      | none => none
      | some midBack =>
          let msx := (ls.x + rs.x) / 2
          let mhx := (lh.x + rh.x) / 2
          let expectedMidBackX := mhx + (msx - mhx) * (4/10)
          let zDeviation := midBack.z - (ls.z.getD 0 + lh.z.getD 0) / 2
          let xDeviation := midBack.x - expectedMidBackX
          some ⟨midBack, zDeviation, xDeviation,
                rltb (14/100) zDeviation || rltb (16/100) |xDeviation|⟩
  | _, _, _, _ => none

/-- The record returned by `calculateHipPosition`. -/
structure HipPosition where
  shoulderHipKneeAngle : ℝ
  hipKneeHorizontalOffset : ℝ
  hipsTooFarBack : Bool

/-- `PoseAnalysisService.calculateHipPosition`. -/
noncomputable def calculateHipPosition (landmarks : List Lm) : Option HipPosition :=
  match landmarks.get? 11, landmarks.get? 23, landmarks.get? 25 with
  | some ls, some lh, some lk =>
      let shoulderHipKneeAngle := calculateAngle (some ls.toPt) (some lh.toPt) (some lk.toPt)
      let hipKneeHorizontalOffset := lh.x - lk.x
      some ⟨shoulderHipKneeAngle, hipKneeHorizontalOffset,
            rltb shoulderHipKneeAngle 75 || rltb (12/100) hipKneeHorizontalOffset⟩
  | _, _, _ => none

/-- The union of the per-exercise analysis objects produced by
`analyzeSquat` … `analyzePullUp`: every feature field any analyzer sets or
any validation rule reads, all optional (`none` models both `null` and an
absent property — `{}` for an unknown exercise id).  The landmark echo
fields (`leftKnee`, `leftShoulder`, …) that the analyzers copy verbatim are
not modelled; no validation rule reads them. -/
structure Angles where
  kneeAngle : Option ℝ
  leftKneeAngle : Option ℝ
  rightKneeAngle : Option ℝ
  hipAngle : Option ℝ
  asymmetry : Option ℝ
  backAngle : Option ℝ
  elbowAngle : Option ℝ
  leftElbowAngle : Option ℝ
  rightElbowAngle : Option ℝ
  bodyAngle : Option ℝ
  backRounding : Option BackRounding
  midBack : Option MidBack
  hipPosition : Option HipPosition

/-- The empty analysis object `{}`. -/
def Angles.empty : Angles :=
  ⟨none, none, none, none, none, none, none, none, none, none, none, none, none⟩

/-- `PoseAnalysisService.analyzeSquat`. -/
noncomputable def analyzeSquat (landmarks : List Lm) : Angles :=
  let leftHip := landmarks.get? 23
  let rightHip := landmarks.get? 24
  let leftKnee := landmarks.get? 25
  let rightKnee := landmarks.get? 26
  let leftAnkle := landmarks.get? 27
  let rightAnkle := landmarks.get? 28
  let leftShoulder := landmarks.get? 11
  let rightShoulder := landmarks.get? 12
  let leftKneeAngle :=
    if isUsableLandmark leftHip && isUsableLandmark leftKnee && isUsableLandmark leftAnkle then
      some (calculateAngle (leftHip.map Lm.toPt) (leftKnee.map Lm.toPt) (leftAnkle.map Lm.toPt))
    else none
  let rightKneeAngle :=
    if isUsableLandmark rightHip && isUsableLandmark rightKnee && isUsableLandmark rightAnkle then
      some (calculateAngle (rightHip.map Lm.toPt) (rightKnee.map Lm.toPt) (rightAnkle.map Lm.toPt))
    else none
  let pair : Option ℝ × Option ℝ :=
    match leftKneeAngle, rightKneeAngle with
    | some l, some r =>
        if rneb l 0 && rneb r 0 then (some ((l + r) / 2), some |l - r|) else (none, none)
    | _, _ => (none, none)
  let hipAngle :=
    if isUsableLandmark leftShoulder && isUsableLandmark leftHip && isUsableLandmark leftKnee then
      some (calculateAngle (leftShoulder.map Lm.toPt) (leftHip.map Lm.toPt) (leftKnee.map Lm.toPt))
    else none
  let roundingGuard := isUsableLandmark leftShoulder && isUsableLandmark rightShoulder
      && isUsableLandmark leftHip && isUsableLandmark rightHip
  { Angles.empty with
    kneeAngle := pair.1
    leftKneeAngle := leftKneeAngle
    rightKneeAngle := rightKneeAngle
    asymmetry := pair.2
    hipAngle := hipAngle
    backRounding := if roundingGuard then calculateBackRounding landmarks else none
    midBack := if roundingGuard then calculateMidBack landmarks else none
    hipPosition :=
      if isUsableLandmark leftHip && isUsableLandmark rightHip then
        calculateHipPosition landmarks
      else none }

/-- `PoseAnalysisService.analyzeDeadlift`. -/
noncomputable def analyzeDeadlift (landmarks : List Lm) : Angles :=
  let leftShoulder := landmarks.get? 11
  let rightShoulder := landmarks.get? 12
  let leftHip := landmarks.get? 23
  let rightHip := landmarks.get? 24
  let leftKnee := landmarks.get? 25
  let roundingGuard := isUsableLandmark leftShoulder && isUsableLandmark rightShoulder
      && isUsableLandmark leftHip && isUsableLandmark rightHip
  { Angles.empty with
    backRounding := if roundingGuard then calculateBackRounding landmarks else none
    midBack := if roundingGuard then calculateMidBack landmarks else none
    backAngle :=
      if isUsableLandmark leftShoulder && isUsableLandmark leftHip && isUsableLandmark leftKnee then
        some (calculateAngle (leftShoulder.map Lm.toPt) (leftHip.map Lm.toPt) (leftKnee.map Lm.toPt))
      else none }

/-- `PoseAnalysisService.analyzeOverheadPress`. -/
noncomputable def analyzeOverheadPress (landmarks : List Lm) : Angles :=
  let leftShoulder := landmarks.get? 11
  let leftElbow := landmarks.get? 13
  let leftWrist := landmarks.get? 15
  let rightShoulder := landmarks.get? 12
  let rightElbow := landmarks.get? 14
  let rightWrist := landmarks.get? 16
  let leftHip := landmarks.get? 23
  let roundingGuard := isUsableLandmark leftShoulder && isUsableLandmark rightShoulder
      && isUsableLandmark (landmarks.get? 23) && isUsableLandmark (landmarks.get? 24)
  let leftElbowAngle :=
    if isUsableLandmark leftShoulder && isUsableLandmark leftElbow && isUsableLandmark leftWrist then
      some (calculateAngle (leftShoulder.map Lm.toPt) (leftElbow.map Lm.toPt) (leftWrist.map Lm.toPt))
    else none
  let rightElbowAngle :=
    if isUsableLandmark rightShoulder && isUsableLandmark rightElbow && isUsableLandmark rightWrist then
      some (calculateAngle (rightShoulder.map Lm.toPt) (rightElbow.map Lm.toPt) (rightWrist.map Lm.toPt))
    else none
  let elbowAngle :=
    match leftElbowAngle, rightElbowAngle with
    | some l, some r => if rneb l 0 && rneb r 0 then some ((l + r) / 2) else none
    | _, _ => none
  { Angles.empty with
    backRounding := if roundingGuard then calculateBackRounding landmarks else none
    midBack := if roundingGuard then calculateMidBack landmarks else none
    leftElbowAngle := leftElbowAngle
    rightElbowAngle := rightElbowAngle
    elbowAngle := elbowAngle
    bodyAngle :=
      match leftShoulder, leftHip with
      | some ls, some lh =>
          some (calculateAngle (some ls.toPt) (some lh.toPt) (some ⟨lh.x, lh.y + 1⟩))
      | _, _ => none }

/-- `PoseAnalysisService.analyzeBenchPress`. -/
noncomputable def analyzeBenchPress (landmarks : List Lm) : Angles :=
  let leftShoulder := landmarks.get? 11
  let rightShoulder := landmarks.get? 12
  let leftElbow := landmarks.get? 13
  let rightElbow := landmarks.get? 14
  let leftWrist := landmarks.get? 15
  let rightWrist := landmarks.get? 16
  let leftElbowAngle :=
    if isUsableLandmark leftShoulder && isUsableLandmark leftElbow && isUsableLandmark leftWrist then
      some (calculateAngle (leftShoulder.map Lm.toPt) (leftElbow.map Lm.toPt) (leftWrist.map Lm.toPt))
    else none
  let rightElbowAngle :=
    if isUsableLandmark rightShoulder && isUsableLandmark rightElbow && isUsableLandmark rightWrist then
      some (calculateAngle (rightShoulder.map Lm.toPt) (rightElbow.map Lm.toPt) (rightWrist.map Lm.toPt))
    else none
  let elbowAngle :=
    match leftElbowAngle, rightElbowAngle with
    | some l, some r => if rneb l 0 && rneb r 0 then some ((l + r) / 2) else none
    | _, _ => none
  { Angles.empty with
    leftElbowAngle := leftElbowAngle
    rightElbowAngle := rightElbowAngle
    elbowAngle := elbowAngle }

/-- `PoseAnalysisService.analyzePullUp`. -/
noncomputable def analyzePullUp (landmarks : List Lm) : Angles :=
  let leftShoulder := landmarks.get? 11
  let leftElbow := landmarks.get? 13
  let leftWrist := landmarks.get? 15
  let leftHip := landmarks.get? 23
  { Angles.empty with
    elbowAngle :=
      if isUsableLandmark leftShoulder && isUsableLandmark leftElbow && isUsableLandmark leftWrist then
        some (calculateAngle (leftShoulder.map Lm.toPt) (leftElbow.map Lm.toPt) (leftWrist.map Lm.toPt))
      else none
    bodyAngle :=
      match leftShoulder, leftHip with
      | some ls, some lh =>
          some (calculateAngle (some ls.toPt) (some lh.toPt) (some ⟨lh.x, lh.y + 1⟩))
      | _, _ => none }

/-- `PoseAnalysisService.analyzeExercise`: dispatch on the exercise id
(`analysisMap`), `{}` when the id has no entry (`result || {}`). -/
noncomputable def analyzeExercise (exerciseId : String) (landmarks : List Lm) : Angles :=
  if exerciseId = "squat" then analyzeSquat landmarks
  else if exerciseId = "deadlift" then analyzeDeadlift landmarks
  else if exerciseId = "overhead_press" then analyzeOverheadPress landmarks
  else if exerciseId = "bench_press" then analyzeBenchPress landmarks
  else if exerciseId = "pull_up" then analyzePullUp landmarks
  else Angles.empty

end PoseAnalysis

/-- The `landmarksWithNames` object assembled by the worker and the
fallback before calling `validateForm`; each field holds the corresponding
`poseLandmarks[i]` coordinate pair or is absent. -/
structure NamedLandmarks where
  leftShoulder : Option Pt
  rightShoulder : Option Pt
  leftHip : Option Pt
  rightHip : Option Pt
  leftKnee : Option Pt
  rightKnee : Option Pt
  leftAnkle : Option Pt
  rightAnkle : Option Pt
  leftElbow : Option Pt
  rightElbow : Option Pt
  leftWrist : Option Pt
  rightWrist : Option Pt

/-- The empty `landmarksWithNames` object `{}`. -/
def NamedLandmarks.empty : NamedLandmarks :=
  ⟨none, none, none, none, none, none, none, none, none, none, none, none⟩

namespace PoseAnalysis

/-- JS property access `landmarks.f.x` style: accessing a member of an
absent landmark throws a `TypeError` (modelled by `Except Unit`), which
`validateForm` catches. -/
def getLm (o : Option Pt) : Except Unit Pt :=
  match o with
  | some p => Except.ok p
  | none => Except.error ()

/-- One validation rule of `src/config/exercises.js`: id, severity and the
predicate (the purely textual `name`/`description`/`correction` fields and
the `affectedJoints` display data carry no pipeline behaviour). -/
structure ValidationCheck where
  id : String
  severity : String
  validate : NamedLandmarks → Angles → Except Unit Bool

/-- One catalog entry of `EXERCISES` (id and rules; display-only fields are
not modelled). -/
structure Exercise where
  id : String
  validationChecks : List ValidationCheck

/-- The `EXERCISES.SQUAT.validationChecks` list. -/
noncomputable def squatChecks : List ValidationCheck :=
  [⟨"knee_valgus", "high", fun nl _ => do
      let lk ← getLm nl.leftKnee
      let rk ← getLm nl.rightKnee
      let la ← getLm nl.leftAnkle
      let ra ← getLm nl.rightAnkle
      pure (rltb |lk.x - rk.x| (|la.x - ra.x| * (85/100)))⟩,
   ⟨"shallow_depth", "medium", fun _ an => pure (rltb 100 (jsn an.kneeAngle))⟩,
   ⟨"excessive_lean", "medium", fun _ an => pure (rltb (jsn an.hipAngle) 70)⟩,
   ⟨"heel_lift", "high", fun nl _ => do
      let la ← getLm nl.leftAnkle
      let ra ← getLm nl.rightAnkle
      let lk ← getLm nl.leftKnee
      let rk ← getLm nl.rightKnee
      pure (rltb ((la.y + ra.y) / 2) ((lk.y + rk.y) / 2 - 15/100))⟩,
   ⟨"knee_forward_travel", "low", fun nl _ => do
      let lk ← getLm nl.leftKnee
      let rk ← getLm nl.rightKnee
      let la ← getLm nl.leftAnkle
      let ra ← getLm nl.rightAnkle
      pure (rltb (15/100) |(lk.x + rk.x) / 2 - (la.x + ra.x) / 2|)⟩,
   ⟨"asymmetric_descent", "medium", fun nl _ => do
      let lk ← getLm nl.leftKnee
      let rk ← getLm nl.rightKnee
      pure (rltb (8/100) |lk.y - rk.y|)⟩,
   ⟨"back_rounding_squat", "critical", fun _ an =>
      pure (match an.backRounding with
      | none => false
      | some br => br.isRounded)⟩,
   ⟨"hips_too_far_back", "medium", fun _ an =>
      pure (match an.hipPosition with
      | none => false
      | some hp => hp.hipsTooFarBack)⟩]

/-- The `EXERCISES.DEADLIFT.validationChecks` list. -/
noncomputable def deadliftChecks : List ValidationCheck :=
  [⟨"rounded_back", "critical", fun _ an => pure (rltb (jsn an.backAngle) 150)⟩,
   ⟨"mid_back_rounding", "critical", fun _ an =>
      pure (match an.backRounding with
      | none => false
      | some br => br.isRounded)⟩,
   ⟨"hips_too_low", "medium", fun nl _ => do
      let ls ← getLm nl.leftShoulder
      let lh ← getLm nl.leftHip
      let lk ← getLm nl.leftKnee
      pure (rltb |ls.y - lh.y| (|lh.y - lk.y| * (7/10)))⟩,
   ⟨"hips_rising_first", "high", fun nl an =>
      if rltb (jsn an.backAngle) 140 then do
        let lh ← getLm nl.leftHip
        let ls ← getLm nl.leftShoulder
        pure (rltb lh.y ls.y)
      else pure false⟩,
   ⟨"hyperextension", "medium", fun _ an => pure (rltb 185 (jsn an.backAngle))⟩,
   ⟨"shoulders_behind_bar", "medium", fun nl _ => do
      let ls ← getLm nl.leftShoulder
      let rs ← getLm nl.rightShoulder
      let lh ← getLm nl.leftHip
      let rh ← getLm nl.rightHip
      pure (rltb ((lh.x + rh.x) / 2 + 1/10) ((ls.x + rs.x) / 2))⟩]

/-- The `EXERCISES.OVERHEAD_PRESS.validationChecks` list. -/
noncomputable def overheadPressChecks : List ValidationCheck :=
  [⟨"back_arch", "high", fun _ an => pure (rltb (jsn an.bodyAngle) 165)⟩,
   ⟨"mid_back_rounding_press", "medium", fun _ an =>
      pure (match an.backRounding with
      | none => false
      | some br => br.isRounded)⟩,
   ⟨"incomplete_lockout", "medium", fun _ an => pure (rltb (jsn an.elbowAngle) 165)⟩,
   ⟨"elbow_flare_press", "medium", fun nl _ => do
      let le ← getLm nl.leftElbow
      let re ← getLm nl.rightElbow
      let ls ← getLm nl.leftShoulder
      let rs ← getLm nl.rightShoulder
      pure (rltb (|ls.x - rs.x| * (13/10)) |le.x - re.x|)⟩,
   ⟨"forward_press_path", "medium", fun nl _ => do
      let lw ← getLm nl.leftWrist
      let rw ← getLm nl.rightWrist
      let ls ← getLm nl.leftShoulder
      let rs ← getLm nl.rightShoulder
      pure (rltb ((ls.x + rs.x) / 2 + 12/100) ((lw.x + rw.x) / 2))⟩,
   ⟨"using_leg_drive", "low", fun nl _ => do
      let lh ← getLm nl.leftHip
      let rh ← getLm nl.rightHip
      match nl.leftKnee, nl.rightKnee with
      | some lk, some rk =>
          let kneeY := (lk.y + rk.y) / 2
          let hipY := (lh.y + rh.y) / 2
          pure (rneb kneeY 0 && rltb (2/10) |kneeY - hipY|)
      | _, _ => pure false⟩]

/-- The `EXERCISES.BENCH_PRESS.validationChecks` list. -/
noncomputable def benchPressChecks : List ValidationCheck :=
  [⟨"elbow_flare", "high", fun nl _ => do
      let le ← getLm nl.leftElbow
      let re ← getLm nl.rightElbow
      let ls ← getLm nl.leftShoulder
      let rs ← getLm nl.rightShoulder
      pure (rltb (|ls.x - rs.x| * (14/10)) |le.x - re.x|)⟩,
   ⟨"bar_bounce", "medium", fun _ an => pure (rltb (jsn an.elbowAngle) 60)⟩,
   ⟨"uneven_press", "medium", fun nl _ => do
      let le ← getLm nl.leftElbow
      let re ← getLm nl.rightElbow
      pure (rltb (8/100) |le.y - re.y|)⟩,
   ⟨"wrist_extension", "medium", fun nl _ => do
      let lw ← getLm nl.leftWrist
      let rw ← getLm nl.rightWrist
      let le ← getLm nl.leftElbow
      let re ← getLm nl.rightElbow
      pure (rltb (1/10) |(lw.x + rw.x) / 2 - (le.x + re.x) / 2|)⟩,
   ⟨"incomplete_lockout_bench", "low", fun _ an =>
      pure (rltb (jsn an.elbowAngle) 160 && rltb 120 (jsn an.elbowAngle))⟩]

/-- The `EXERCISES.PULL_UP.validationChecks` list. -/
noncomputable def pullUpChecks : List ValidationCheck :=
  [⟨"partial_rep", "medium", fun _ an =>
      pure (rltb 140 (jsn an.elbowAngle) && rltb (jsn an.elbowAngle) 170)⟩,
   ⟨"shoulder_shrug", "medium", fun nl _ => do
      let ls ← getLm nl.leftShoulder
      let rs ← getLm nl.rightShoulder
      let lh ← getLm nl.leftHip
      let rh ← getLm nl.rightHip
      pure (rltb (4/10) ((lh.y + rh.y) / 2 - (ls.y + rs.y) / 2))⟩,
   ⟨"excessive_kip", "low", fun nl _ => do
      let lh ← getLm nl.leftHip
      let rh ← getLm nl.rightHip
      let ls ← getLm nl.leftShoulder
      let rs ← getLm nl.rightShoulder
      pure (rltb (15/100) |(lh.x + rh.x) / 2 - (ls.x + rs.x) / 2|)⟩,
   ⟨"elbows_forward", "medium", fun nl _ => do
      let le ← getLm nl.leftElbow
      let re ← getLm nl.rightElbow
      let ls ← getLm nl.leftShoulder
      let rs ← getLm nl.rightShoulder
      pure (rltb ((ls.x + rs.x) / 2 + 1/10) ((le.x + re.x) / 2))⟩,
   ⟨"chin_not_over", "medium", fun _ an =>
      pure (rltb 90 (jsn an.elbowAngle) && rltb (jsn an.elbowAngle) 120)⟩]

/-- The `EXERCISES` catalog in object-insertion order
(`SQUAT`, `DEADLIFT`, `OVERHEAD_PRESS`, `BENCH_PRESS`, `PULL_UP`). -/
noncomputable def EXERCISES : List Exercise :=
  [⟨"squat", squatChecks⟩, ⟨"deadlift", deadliftChecks⟩,
   ⟨"overhead_press", overheadPressChecks⟩, ⟨"bench_press", benchPressChecks⟩,
   ⟨"pull_up", pullUpChecks⟩]

/-- `PoseAnalysisService.getExerciseById` (`!exerciseId` is the JS falsiness
guard — the empty string short-circuits to `null`). -/
noncomputable def getExerciseById (exerciseId : String) : Option Exercise :=
  if exerciseId = "" then none
  else EXERCISES.find? (fun ex => decide (ex.id = exerciseId))

/-- `PoseAnalysisService.validateForm` (string-id overload, as called by the
worker): evaluate every rule of the exercise's catalog entry; a rule whose
predicate returns `true` contributes an error, a rule that throws is caught
and contributes nothing. -/
noncomputable def validateForm (exerciseId : String) (landmarks : NamedLandmarks)
    (angles : Angles) : List RepCounting.FormError :=
  let checks := ((getExerciseById exerciseId).map (fun ex => ex.validationChecks)).getD []
  checks.foldl
    (fun errors check =>
      match check.validate landmarks angles with
      | Except.ok true => errors ++ [⟨check.id, check.severity⟩]
      | _ => errors) []

end PoseAnalysis

namespace AnalyzeVideo

open RepCounting

/-- `workerCount = Math.min(4, Math.ceil(totalFrames / 50))`
(on naturals, `Math.ceil (n / 50) = (n + 49) / 50`). -/
def workerCount (totalFrames : ℕ) : ℕ := min 4 ((totalFrames + 49) / 50)

/-- `frameBatchSize = Math.ceil(totalFrames / workerCount)`.  For
`totalFrames = 0` the JS quotient is `0/0 = NaN`; the slicing loop then
performs no iteration, which the model realises by letting the size be `0`
(`chunks` produces no batch either way). -/
def frameBatchSize (totalFrames : ℕ) : ℕ :=
  let wc := workerCount totalFrames
  if wc = 0 then 0 else (totalFrames + wc - 1) / wc

/-- The batch-splitting loop
`for (i = 0; i < frames.length; i += frameBatchSize) batches.push(frames.slice(i, i + frameBatchSize))`. -/
def chunks (size : ℕ) (l : List α) : List (List α) :=
  if h : size = 0 ∨ l.isEmpty = true then []
  else l.take size :: chunks size (l.drop size)
termination_by l.length
decreasing_by
  push_neg at h
  rcases l with _ | ⟨a, t⟩
  · exact absurd rfl h.2
  · simp only [List.length_drop, List.length_cons]
    omega

/-- The batches built from the extracted frames. -/
def makeBatches (frames : List α) : List (List α) :=
  chunks (frameBatchSize frames.length) frames

/-- The result list a worker returns for one batch: the worker walks its
frames in order and tags result `i` with
`originalIndex = frameIndices[i] = batchIndex * frameBatchSize + i`
(the synchronous fallback tags with the frame's own `index` field, which
carries the same value). -/
def workerBatchResults (batchIndex size : ℕ) (batch : List α) : List (ℕ × α) :=
  batch.enum.map (fun p => (batchIndex * size + p.1, p.2))

/-- `batchResults.flat()`: `Promise.all` preserves batch order, each batch
contributes its worker results in frame order. -/
def flattenedResults (frames : List α) : List (ℕ × α) :=
  let size := frameBatchSize frames.length
  ((makeBatches frames).enum.map (fun p => workerBatchResults p.1 size p.2)).flatten

/-- One entry of the `errorCounts` accumulator: rule id, the severity of the
first occurrence, and the occurrence count. -/
def bumpError (acc : List (String × String × ℕ)) (e : FormError) :
    List (String × String × ℕ) :=
  if acc.any (fun p => p.1 = e.id) then
    acc.map (fun p => if p.1 = e.id then (p.1, p.2.1, p.2.2 + 1) else p)
  else acc ++ [(e.id, e.severity, 1)]

/-- The `errorCounts` map of the error-aggregation step, as an association
list in key-insertion order (JS object string keys preserve insertion
order, which `Object.values` then reproduces). -/
def collectErrorCounts (frames : List FrameResult) : List (String × String × ℕ) :=
  frames.foldl (fun acc f => f.errors.foldl bumpError acc) []

/-- The severity-dependent retention threshold of the aggregation step. -/
def thresholdFrequency (severity : String) : ℚ :=
  if severity = "critical" then 15/100
  else if severity = "high" then 20/100
  else if severity = "medium" then 25/100
  else 30/100

/-- `severityOrder[severity] || 0` of the aggregation sort comparator. -/
def severityOrder (severity : String) : ℕ :=
  if severity = "critical" then 4
  else if severity = "high" then 3
  else if severity = "medium" then 2
  else if severity = "low" then 1
  else 0

/-- One aggregated error after the `.map` step: the merged issue enriched
with `frequency` and `thresholdFrequency`. -/
structure AggError where
  id : String
  severity : String
  count : ℕ
  frequency : ℚ
  thresholdFrequency : ℚ
deriving DecidableEq, Repr

/-- The merged issues with frequency and threshold attached
(`Object.values(errorCounts).map(err => ...)`). -/
def mergedWithFreq (frames : List FrameResult) : List AggError :=
  (collectErrorCounts frames).map (fun p =>
    ⟨p.1, p.2.1, p.2.2, (p.2.2 : ℚ) / (frames.length : ℚ), thresholdFrequency p.2.1⟩)

/-- The `.filter(err => err.frequency >= err.thresholdFrequency)` step. -/
def keptErrors (frames : List FrameResult) : List AggError :=
  (mergedWithFreq frames).filter (fun e => decide (e.thresholdFrequency ≤ e.frequency))

/-- The sort order of the aggregation comparator
`(severityOrder[b.severity]||0) - (severityOrder[a.severity]||0)`:
`a` precedes `b` when `a`'s severity rank is at least `b`'s. -/
def sevGE (a b : AggError) : Prop := severityOrder b.severity ≤ severityOrder a.severity

instance : DecidableRel sevGE := fun _ _ => Nat.decLe _ _

instance : IsTotal AggError sevGE :=
  ⟨fun a b => (Nat.le_total (severityOrder b.severity) (severityOrder a.severity)).imp
    (fun h => h) (fun h => h)⟩

instance : IsTrans AggError sevGE :=
  ⟨fun _ _ _ hab hbc => Nat.le_trans hbc hab⟩

/-- The `significantErrors` list of `analyzeVideo`: empty when no frame was
analyzed, otherwise the merged issues filtered by the severity threshold and
stably sorted by severity rank descending (`Array.prototype.sort` is
stable; `List.insertionSort` realises the same stable sort). -/
def significantErrors (frames : List FrameResult) : List AggError :=
  if 0 < frames.length then List.insertionSort sevGE (keptErrors frames) else []

/-- The `baseScore` of the scoring step. -/
def baseScore (frames : List FrameResult) : ℚ :=
  if 0 < frames.length then
    max 0 (min 100 (100 - ((significantErrors frames).length : ℚ) * 15))
  else 0

/-- The final `score = Math.round(baseScore * completenessMultiplier)`. -/
def score (frames : List FrameResult) (confidence : ℚ) : ℚ :=
  jsRound (baseScore frames * confidence)

/-- JS property read `repRange.startFrame`: the ranges produced by
`identifyReps` carry `startIndex`/`endIndex` but no `startFrame` property,
so this access yields `undefined` (`none`) for every range. -/
def RepRange.startFrame (_ : RepRange) : Option ℚ := none

/-- JS property read `repRange.endFrame`: likewise `undefined`. -/
def RepRange.endFrame (_ : RepRange) : Option ℚ := none

/-- JS `+ 1` on a possibly-undefined number: `undefined + 1` is `NaN`
(`none` stands for both `undefined` and `NaN` here; both are sent to `0` by
the index conversion below). -/
def jsAddOne (o : Option ℚ) : Option ℚ := o.map (fun q => q + 1)

/-- `ToIntegerOrInfinity` for a finite-or-`NaN`/`undefined` argument:
truncation toward zero, with `NaN`/`undefined` mapped to `0`. -/
def toIntegerOrZero (o : Option ℚ) : ℤ :=
  match o with
  | none => 0
  | some q => if q < 0 then ⌈q⌉ else ⌊q⌋

/-- `Array.prototype.slice(start, end)` for the call site
`validFrameResults.slice(repRange.startFrame, repRange.endFrame + 1)`:
both arguments are numbers, `undefined` or `NaN` (never a literally
`undefined` end that would default to the array length — the end argument
is always the result of `+ 1`). -/
def jsSlice (l : List α) (startArg endArg : Option ℚ) : List α :=
  let len : ℤ := l.length
  let s := toIntegerOrZero startArg
  let e := toIntegerOrZero endArg
  let from_ := if s < 0 then max (len + s) 0 else min s len
  let to_ := if e < 0 then max (len + e) 0 else min e len
  (l.take to_.toNat).drop from_.toNat

/-- The per-repetition frame slice taken by `analyzeVideo` before calling
`analyzeRepProgression`:
`validFrameResults.slice(repRange.startFrame, repRange.endFrame + 1)`. -/
def repProgressionSlice (validFrameResults : List FrameResult) (repRange : RepRange) :
    List FrameResult :=
  jsSlice validFrameResults (RepRange.startFrame repRange)
    (jsAddOne (RepRange.endFrame repRange))

end AnalyzeVideo

/-! ## Theorems -/

open RepCounting RepProgression AnalyzeVideo

/-- Helper: the `hipHeight` metric extraction never consults the abstracted
angle routine (only the `kneeAngle` fallback branch does). -/
theorem extractMetric_hipHeight (f g : Landmark → Landmark → Landmark → ℚ)
    (frames : List FrameResult) :
    extractMetric f frames "hipHeight" = extractMetric g frames "hipHeight" := by
  simp [extractMetric]

set_option maxHeartbeats 1000000 in
/-- Helper: on the synthetic sinusoidal squat video the primary `hipHeight`
metric is valid on every frame, so `countReps` is independent of the
abstracted angle routine. -/
theorem countReps_sineFrames_indep (f : Landmark → Landmark → Landmark → ℚ) :
    countReps f sineFrames "squat" = countReps (fun _ _ _ => 0) sineFrames "squat" := by
  have hnc : ¬(((List.filter (fun d => d.value.isSome && decide (d.value ≠ some 0))
          (extractMetric (fun _ _ _ => 0) sineFrames "hipHeight")).length : ℚ) <
        (sineFrames.length : ℚ) * (1 / 2)) :=
    of_decide_eq_false (by with_unfolding_all rfl)
  simp only [countReps, repThresholds, reduceIte]
  rw [extractMetric_hipHeight f (fun _ _ _ => 0) sineFrames]
  rw [if_neg hnc, if_neg hnc]

/-- C10: for every exercise id and every input frame list with fewer than 5
frames, `countReps` returns the well-formed zero result
(`count 0`, empty `repRanges`, empty `metricData`, no
`peakFrames`/`valleyFrames`) without raising an error. -/
theorem countReps_short_input_zero_result
    (angleFn : Landmark → Landmark → Landmark → ℚ)
    (frames : List FrameResult) (exerciseId : String)
    (h : frames.length < 5) :
    countReps angleFn frames exerciseId = ⟨0, [], none, none, []⟩ := by
  simp only [countReps, if_pos h]

/-- Witness for C10 at the empty frame list and a catalogued exercise id. -/
theorem countReps_short_input_zero_result_witness :
    countReps (fun _ _ _ => 0) [] "squat" = ⟨0, [], none, none, []⟩ :=
  countReps_short_input_zero_result (fun _ _ _ => 0) [] "squat" (by decide)

/-- C2 (counterexample to the claim as stated): for the uncatalogued id
`"unknown_exercise"` none of the pipeline operations raises an error; each
returns its empty/zero default (`countReps` a zero result on a 5-frame
input, `validateForm` an empty issue list, `analyzeExercise` the empty
object, `analyzeRepProgression` `null`). -/
theorem unknown_exercise_swallowed_counterexample :
    countReps (fun _ _ _ => 0) (List.replicate 5 ⟨0, none, []⟩) "unknown_exercise"
        = ⟨0, [], none, none, []⟩
    ∧ PoseAnalysis.validateForm "unknown_exercise" NamedLandmarks.empty
        PoseAnalysis.Angles.empty = []
    ∧ PoseAnalysis.analyzeExercise "unknown_exercise" [] = PoseAnalysis.Angles.empty
    ∧ analyzeRepProgression [] "unknown_exercise" = none := by
  refine ⟨?_, ?_, ?_, ?_⟩ <;> rfl

/-- C2 (amended): for every exercise id outside the catalog, the pipeline
operations swallow the condition and return neutral defaults instead of
raising: `validateForm` returns `[]`, `countReps` a zero result,
`analyzeExercise` the empty analysis object and `analyzeRepProgression`
`null`. -/
theorem unknown_exercise_swallowed
    (exerciseId : String)
    (h : exerciseId ∉ ["squat", "deadlift", "overhead_press", "bench_press", "pull_up"]) :
    (∀ nl an, PoseAnalysis.validateForm exerciseId nl an = [])
    ∧ (∀ angleFn frames, countReps angleFn frames exerciseId = ⟨0, [], none, none, []⟩)
    ∧ (∀ lms, PoseAnalysis.analyzeExercise exerciseId lms = PoseAnalysis.Angles.empty)
    ∧ (∀ repFrames, analyzeRepProgression repFrames exerciseId = none) := by
  simp only [List.mem_cons, List.not_mem_nil, or_false, not_or] at h
  obtain ⟨h1, h2, h3, h4, h5⟩ := h
  refine ⟨fun nl an => ?_, fun angleFn frames => ?_, fun lms => ?_, fun repFrames => ?_⟩
  · have hfind : PoseAnalysis.getExerciseById exerciseId = none := by
      by_cases he : exerciseId = ""
      · simp [PoseAnalysis.getExerciseById, he]
      · simp [PoseAnalysis.getExerciseById, he, PoseAnalysis.EXERCISES, List.find?,
          Ne.symm h1, Ne.symm h2, Ne.symm h3, Ne.symm h4, Ne.symm h5]
    simp [PoseAnalysis.validateForm, hfind]
  · simp only [countReps, repThresholds, h1, h2, h3, h4, h5, if_false, ite_self]
  · simp [PoseAnalysis.analyzeExercise, h1, h2, h3, h4, h5]
  · simp [analyzeRepProgression, exercisePatterns, h1, h2, h3, h4, h5]

/-- Witness for C2 (amended) at the concrete uncatalogued id
`"bicep_curl"`. -/
theorem unknown_exercise_swallowed_witness :
    PoseAnalysis.validateForm "bicep_curl" NamedLandmarks.empty PoseAnalysis.Angles.empty = []
    ∧ countReps (fun _ _ _ => 0) (List.replicate 6 ⟨0, none, []⟩) "bicep_curl"
        = ⟨0, [], none, none, []⟩
    ∧ PoseAnalysis.analyzeExercise "bicep_curl" [] = PoseAnalysis.Angles.empty
    ∧ analyzeRepProgression [] "bicep_curl" = none := by
  have h := unknown_exercise_swallowed "bicep_curl" (by decide)
  exact ⟨h.1 _ _, h.2.1 _ _, h.2.2.1 _, h.2.2.2 _⟩

/-- C1 (the code at the failing input): the frame slice that `analyzeVideo`
hands to `analyzeRepProgression` is empty for every repetition range,
because the ranges produced by `identifyReps` carry `startIndex`/`endIndex`
while the slice reads the non-existent `startFrame`/`endFrame` properties
(`slice(undefined, NaN)`).  In particular it is not the claimed inclusive
`startIndex..endIndex` sub-range: for 20 analyzed frames and the range
`3..15` the claimed slice has 13 frames, the code's has none. -/
theorem repProgressionSlice_always_empty :
    (∀ (frames : List FrameResult) (r : RepRange), repProgressionSlice frames r = [])
    ∧ repProgressionSlice (List.replicate 20 ⟨0, none, []⟩) ⟨3, 9, 15, 0, 0, 0, 0, 0⟩
        ≠ ((List.replicate 20 (⟨0, none, []⟩ : FrameResult)).drop 3).take 13 := by
  have hmain : ∀ (frames : List FrameResult) (r : RepRange),
      repProgressionSlice frames r = [] := by
    intro frames r
    simp only [repProgressionSlice, jsSlice, AnalyzeVideo.RepRange.startFrame,
      AnalyzeVideo.RepRange.endFrame, jsAddOne, toIntegerOrZero, Option.map_none']
    norm_num
  refine ⟨hmain, ?_⟩
  rw [hmain]
  intro hcontra
  have := congrArg List.length hcontra
  simp [List.length_take, List.length_drop] at this

set_option maxHeartbeats 1000000 in
set_option maxRecDepth 100000 in
/-- Helper: the explicit value of `countReps` on the synthetic sinusoidal
squat video (established once by kernel evaluation and reused by the C5
theorem): the three repetition ranges `3→9→15`, `15→21→27`, `27→33→39`. -/
theorem countReps_sineFrames_repRanges
    (f : Landmark → Landmark → Landmark → ℚ) :
    (countReps f sineFrames "squat").repRanges =
      [⟨3, 9, 15, 3/10, 9/10, 3/2, 6/5, 933/5000⟩,
       ⟨15, 21, 27, 3/2, 21/10, 27/10, 6/5, 933/5000⟩,
       ⟨27, 33, 39, 27/10, 33/10, 39/10, 6/5, 933/5000⟩] := by
  rw [countReps_sineFrames_indep f]
  with_unfolding_all rfl

set_option maxHeartbeats 1000000 in
set_option maxRecDepth 100000 in
/-- C5: on a synthetic sinusoidal hip-height series with three full cycles
(amplitude `0.25`, exceeding the adaptive threshold
`max(0.08, 0.15×0.25) = 0.08`), `countReps` returns exactly 3 repetition
ranges; their frame intervals are strictly ordered inside each range and
consecutive ranges overlap at most in the shared boundary extremum. -/
theorem countReps_sinusoid_three_reps
    (f : Landmark → Landmark → Landmark → ℚ) :
    (countReps f sineFrames "squat").count = 3
    ∧ (countReps f sineFrames "squat").repRanges.map
        (fun r => (r.startIndex, r.midIndex, r.endIndex))
        = [(3, 9, 15), (15, 21, 27), (27, 33, 39)]
    ∧ (countReps f sineFrames "squat").repRanges.Chain'
        (fun a b => a.endIndex ≤ b.startIndex)
    ∧ (countReps f sineFrames "squat").repRanges.all
        (fun r => decide (r.startIndex < r.midIndex) && decide (r.midIndex < r.endIndex)) := by
  have hr := countReps_sineFrames_repRanges f
  have hc : (countReps f sineFrames "squat").count = 3 := by
    rw [countReps_sineFrames_indep f]
    with_unfolding_all rfl
  refine ⟨hc, ?_, ?_, ?_⟩
  · rw [hr]; decide
  · rw [hr]; simp [List.chain'_cons, List.chain'_singleton]
  · rw [hr]; decide

/-- Helper: every merged issue carries
`thresholdFrequency = thresholdFrequency(severity)` by construction. -/
theorem mem_mergedWithFreq_thresholdField {frames : List FrameResult}
    {e : AggError} (he : e ∈ mergedWithFreq frames) :
    e.thresholdFrequency = thresholdFrequency e.severity := by
  obtain ⟨p, _, rfl⟩ := List.mem_map.mp he
  rfl

/-- Helper: every merged issue carries
`frequency = count / analyzedFrameCount` by construction. -/
theorem mem_mergedWithFreq_frequency {frames : List FrameResult}
    {e : AggError} (he : e ∈ mergedWithFreq frames) :
    e.frequency = (e.count : ℚ) / (frames.length : ℚ) := by
  obtain ⟨p, _, rfl⟩ := List.mem_map.mp he
  rfl

/-- Helper (stability of `orderedInsert`): when every element satisfying `p`
sorts no earlier than an inserted element that also satisfies `p`, filtering
by `p` commutes with the insertion. -/
theorem filter_orderedInsert {α : Type} (p : α → Bool) (r : α → α → Prop)
    [DecidableRel r] (a : α) (l : List α)
    (hp : ∀ b, p b = true → p a = true → r a b) :
    (List.orderedInsert r a l).filter p =
      if p a then a :: l.filter p else l.filter p := by
  induction l with
  | nil =>
      simp only [List.orderedInsert, List.filter]
      cases hpa : p a <;> simp
  | cons b t ih =>
      simp only [List.orderedInsert]
      by_cases hab : r a b
      · rw [if_pos hab]
        cases hpa : p a <;> simp [List.filter_cons, hpa]
      · rw [if_neg hab]
        by_cases hpb : p b = true
        · have hpa : ¬ p a = true := fun hpa => hab (hp b hpb hpa)
          simp only [List.filter_cons, hpb, if_true, ih, hpa, if_false,
            Bool.not_eq_true] at *
          simp [hpb, hpa]
        · simp only [Bool.not_eq_true] at hpb
          cases hpa : p a <;> simp [List.filter_cons, hpb, hpa, ih]

/-- Helper (stability of `insertionSort`): filtering by a predicate that is
constant inside each tie class commutes with the stable sort, i.e. the sort
preserves the relative order of elements sharing a predicate class. -/
theorem filter_insertionSort {α : Type} (p : α → Bool) (r : α → α → Prop)
    [DecidableRel r] (H : ∀ a b, p a = true → p b = true → r a b) :
    ∀ l : List α, (List.insertionSort r l).filter p = l.filter p := by
  intro l
  induction l with
  | nil => rfl
  | cons a t ih =>
      simp only [List.insertionSort]
      rw [filter_orderedInsert p r a _ (fun b hb ha => H a b ha hb)]
      cases hpa : p a <;> simp [List.filter_cons, hpa, ih]

/-- C3: an issue appears among the significant errors iff it is a merged
issue whose frequency reaches the (inclusive) threshold of its severity
(0.15 critical / 0.20 high / 0.25 medium / 0.30 low, frequency =
occurrences over analyzed frame count); the retained list is sorted by
severity rank descending, and within one severity the insertion order of
the merged issues is preserved (stability). -/
theorem significantErrors_spec (frames : List FrameResult) :
    (∀ e, e ∈ significantErrors frames ↔
        e ∈ mergedWithFreq frames ∧ thresholdFrequency e.severity ≤ e.frequency)
    ∧ (∀ e ∈ mergedWithFreq frames, e.frequency = (e.count : ℚ) / (frames.length : ℚ))
    ∧ List.Sorted sevGE (significantErrors frames)
    ∧ (∀ s, (significantErrors frames).filter (fun e => e.severity == s)
          = (keptErrors frames).filter (fun e => e.severity == s)) := by
  by_cases hlen : 0 < frames.length
  · refine ⟨fun e => ?_, fun e he => mem_mergedWithFreq_frequency he, ?_, fun s => ?_⟩
    · rw [significantErrors, if_pos hlen]
      rw [List.mem_insertionSort]
      unfold keptErrors
      rw [List.mem_filter]
      constructor
      · rintro ⟨hm, hd⟩
        exact ⟨hm, by
          have := of_decide_eq_true hd
          rwa [mem_mergedWithFreq_thresholdField hm] at this⟩
      · rintro ⟨hm, hd⟩
        exact ⟨hm, decide_eq_true (by rwa [mem_mergedWithFreq_thresholdField hm])⟩
    · rw [significantErrors, if_pos hlen]
      exact List.sorted_insertionSort sevGE (keptErrors frames)
    · rw [significantErrors, if_pos hlen]
      refine filter_insertionSort _ sevGE (fun a b ha hb => ?_) (keptErrors frames)
      have ha' := eq_of_beq ha
      have hb' := eq_of_beq hb
      unfold sevGE
      rw [ha', hb']
  · have hnil : frames = [] := by
      cases frames with
      | nil => rfl
      | cons a t => simp at hlen
    subst hnil
    refine ⟨fun e => ?_, fun e he => mem_mergedWithFreq_frequency he, ?_, fun s => ?_⟩
    · simp [significantErrors, mergedWithFreq, collectErrorCounts]
    · simp [significantErrors]
    · simp [significantErrors, keptErrors, mergedWithFreq, collectErrorCounts]

/-- C4: the base score is `clamp(100 − 15 × number of significant errors,
0, 100)` when at least one frame was analyzed and `0` for zero analyzable
frames, and the final score is the base score times the completeness
confidence, rounded to the nearest integer (half up, as `Math.round`). -/
theorem score_spec (frames : List FrameResult) (confidence : ℚ) :
    baseScore frames =
      (if frames.length = 0 then 0
       else min (max (100 - 15 * ((significantErrors frames).length : ℚ)) 0) 100)
    ∧ score frames confidence = jsRound (baseScore frames * confidence) := by
  refine ⟨?_, rfl⟩
  have clampComm : ∀ x : ℚ, max 0 (min 100 x) = min (max x 0) 100 := by
    intro x
    rcases le_total x 0 with h | h
    · rw [min_eq_right (h.trans (by norm_num)), max_eq_left h,
        max_eq_right h, min_eq_left (by norm_num)]
    · rw [max_eq_right (le_min (by norm_num) h), max_eq_left h, min_comm]
  unfold baseScore
  by_cases h : 0 < frames.length
  · rw [if_pos h, if_neg (by omega)]
    rw [show (100 : ℚ) - ((significantErrors frames).length : ℚ) * 15
        = 100 - 15 * ((significantErrors frames).length : ℚ) by ring]
    exact clampComm _
  · rw [if_neg h, if_pos (by omega)]

/-- Helper: one worker's tagged result list is the `enumFrom` of its batch
at offset `batchIndex * frameBatchSize`. -/
theorem workerBatchResults_eq_enumFrom {α : Type} (bi size : ℕ) (batch : List α) :
    workerBatchResults bi size batch = List.enumFrom (bi * size) batch := by
  rw [workerBatchResults, ← List.map_fst_add_enum_eq_enumFrom]
  apply List.map_congr_left
  intro a _
  rcases a with ⟨i, x⟩
  simp [Prod.map, Nat.add_comm]

/-- Helper: `enumFrom` distributes over append. -/
theorem enumFrom_append {α : Type} (n : ℕ) (l₁ l₂ : List α) :
    List.enumFrom n (l₁ ++ l₂) = List.enumFrom n l₁ ++ List.enumFrom (n + l₁.length) l₂ := by
  induction l₁ generalizing n with
  | nil => simp
  | cons a t ih =>
      simp only [List.cons_append, List.enumFrom_cons, ih, List.length_cons]
      rw [show n + 1 + t.length = n + (t.length + 1) by omega]

/-- Helper: the batches concatenate back to the original frame list. -/
theorem chunks_flatten {α : Type} (size : ℕ) (hs : 0 < size) (l : List α) :
    (chunks size l).flatten = l := by
  rw [chunks]
  by_cases he : l.isEmpty = true
  · rw [dif_pos (Or.inr he)]
    rw [List.isEmpty_iff.mp he]
    rfl
  · rw [dif_neg (by push_neg; exact ⟨by omega, he⟩)]
    rw [List.flatten_cons, chunks_flatten size hs (l.drop size)]
    exact List.take_append_drop size l
termination_by l.length
decreasing_by
  rcases l with _ | ⟨a, t⟩
  · exact absurd rfl he
  · simp only [List.length_drop, List.length_cons]
    omega

/-- Helper: every batch respects the batch size. -/
theorem chunks_size_le {α : Type} (size : ℕ) (l : List α) :
    ∀ b ∈ chunks size l, b.length ≤ size := by
  intro b hb
  rw [chunks] at hb
  by_cases hcond : size = 0 ∨ l.isEmpty = true
  · rw [dif_pos hcond] at hb
    exact absurd hb (List.not_mem_nil b)
  · rw [dif_neg hcond] at hb
    rcases List.mem_cons.mp hb with h | h
    · subst h
      simpa using List.length_take_le size l
    · exact chunks_size_le size (l.drop size) b h
termination_by l.length
decreasing_by
  push_neg at hcond
  rcases l with _ | ⟨a, t⟩
  · exact absurd rfl hcond.2
  · simp only [List.length_drop, List.length_cons]
    omega

/-- Helper: at most `k` batches are produced when the list fits into `k`
batches of the given size. -/
theorem chunks_count_le {α : Type} (size : ℕ) (hs : 0 < size) :
    ∀ (l : List α) (k : ℕ), l.length ≤ k * size → (chunks size l).length ≤ k := by
  intro l k hk
  rw [chunks]
  by_cases he : l.isEmpty = true
  · rw [dif_pos (Or.inr he)]
    exact Nat.zero_le k
  · rw [dif_neg (by push_neg; exact ⟨by omega, he⟩)]
    have hlpos : 0 < l.length := by
      rcases l with _ | ⟨a, t⟩
      · exact absurd rfl he
      · simp
    have hkpos : 0 < k := by
      by_contra hk0
      push_neg at hk0
      interval_cases k
      omega
    have hmul : (k - 1) * size = k * size - 1 * size := Nat.sub_mul k 1 size
    have hrec := chunks_count_le size hs (l.drop size) (k - 1)
      (by simp only [List.length_drop]; omega)
    simp only [List.length_cons]
    omega
termination_by l _ _ => l.length
decreasing_by
  rcases l with _ | ⟨a, t⟩
  · exact absurd rfl he
  · simp only [List.length_drop, List.length_cons]
    omega

/-- Helper: flattening the per-batch worker results of the chunked tail of a
list reproduces `enumFrom` of the list at the batch-aligned offset. -/
theorem chunks_workerResults_flatten {α : Type} (size : ℕ) (hs : 0 < size) :
    ∀ (l : List α) (k : ℕ),
      ((List.enumFrom k (chunks size l)).map
          (fun p => workerBatchResults p.1 size p.2)).flatten
        = List.enumFrom (k * size) l := by
  intro l k
  rw [chunks]
  by_cases he : l.isEmpty = true
  · rw [dif_pos (Or.inr he)]
    rw [List.isEmpty_iff.mp he]
    rfl
  · rw [dif_neg (by push_neg; exact ⟨by omega, he⟩)]
    rw [List.enumFrom_cons, List.map_cons, List.flatten_cons]
    rw [chunks_workerResults_flatten size hs (l.drop size) (k + 1)]
    rw [workerBatchResults_eq_enumFrom]
    conv_rhs => rw [← List.take_append_drop size l]
    rw [enumFrom_append]
    congr 1
    by_cases hle : l.length ≤ size
    · rw [List.drop_eq_nil_of_le hle]
      rfl
    · rw [List.length_take, Nat.min_eq_left (by omega)]
      congr 1
      ring
termination_by l _ => l.length
decreasing_by
  rcases l with _ | ⟨a, t⟩
  · exact absurd rfl he
  · simp only [List.length_drop, List.length_cons]
    omega

/-- Helper: at least one worker is allocated for a non-empty frame list. -/
theorem workerCount_pos {n : ℕ} (h : 0 < n) : 0 < workerCount n := by
  have h1 : 1 ≤ (n + 49) / 50 := by
    rw [Nat.le_div_iff_mul_le (by norm_num)]
    omega
  unfold workerCount
  omega

/-- Helper: the batch size is positive for a non-empty frame list. -/
theorem frameBatchSize_pos {n : ℕ} (h : 0 < n) : 0 < frameBatchSize n := by
  have hwc := workerCount_pos h
  unfold frameBatchSize
  rw [if_neg (by omega)]
  exact (Nat.le_div_iff_mul_le hwc).mpr (by omega)

/-- Helper: `workerCount` batches of `frameBatchSize` cover all frames. -/
theorem le_workerCount_mul_frameBatchSize {n : ℕ} (h : 0 < n) :
    n ≤ workerCount n * frameBatchSize n := by
  have hwc := workerCount_pos h
  unfold frameBatchSize
  rw [if_neg (by omega)]
  have h1 := Nat.div_add_mod (n + workerCount n - 1) (workerCount n)
  have h2 := Nat.mod_lt (n + workerCount n - 1) hwc
  omega

/-- C6: the orchestrator splits the frames into at most 4 batches of at
most `frameBatchSize = ceil(N / workerCount)` frames
(`workerCount = min(4, ceil(N/50))`), the batches concatenate back to the
original list, and the flattened worker results are exactly the frames in
original order, result `k` carrying `originalIndex k`
(`flattenedResults frames = frames.enum`). -/
theorem orchestrator_order_spec {α : Type} (frames : List α) :
    (makeBatches frames).flatten = frames
    ∧ flattenedResults frames = frames.enum
    ∧ (∀ b ∈ makeBatches frames, b.length ≤ frameBatchSize frames.length)
    ∧ (makeBatches frames).length ≤ 4 := by
  by_cases hnil : frames.isEmpty = true
  · have hf : frames = [] := List.isEmpty_iff.mp hnil
    subst hf
    refine ⟨?_, ?_, ?_, ?_⟩ <;>
      simp [makeBatches, flattenedResults, chunks, List.enum]
  · have hpos : 0 < frames.length := by
      rcases frames with _ | ⟨a, t⟩
      · exact absurd rfl hnil
      · simp
    have hsize := frameBatchSize_pos hpos
    refine ⟨chunks_flatten _ hsize frames, ?_, chunks_size_le _ frames, ?_⟩
    · have hflat := chunks_workerResults_flatten (frameBatchSize frames.length) hsize frames 0
      simpa [flattenedResults, makeBatches, List.enum] using hflat
    · exact le_trans
        (chunks_count_le _ hsize frames (workerCount frames.length)
          (le_workerCount_mul_frameBatchSize hpos))
        (min_le_left 4 _)

/-- Helper: the folded absolute heading difference lies in `[0, 180]`. -/
theorem angleCore_bounds (t1 t2 : ℝ) (h1l : -Real.pi < t1) (h1u : t1 ≤ Real.pi)
    (h2l : -Real.pi < t2) (h2u : t2 ≤ Real.pi) :
    0 ≤ (if 180 < |(t1 - t2) * 180 / Real.pi| then 360 - |(t1 - t2) * 180 / Real.pi|
         else |(t1 - t2) * 180 / Real.pi|)
    ∧ (if 180 < |(t1 - t2) * 180 / Real.pi| then 360 - |(t1 - t2) * 180 / Real.pi|
       else |(t1 - t2) * 180 / Real.pi|) ≤ 180 := by
  have hpi := Real.pi_pos
  have habs : |(t1 - t2) * 180 / Real.pi| = |t1 - t2| * 180 / Real.pi := by
    rw [abs_div, abs_mul, abs_of_pos hpi]
    norm_num
  have hdiff : |t1 - t2| < 2 * Real.pi := by
    rw [abs_sub_lt_iff]
    constructor <;> linarith
  have hlt360 : |(t1 - t2) * 180 / Real.pi| < 360 := by
    rw [habs, div_lt_iff hpi]
    nlinarith [abs_nonneg (t1 - t2)]
  have hge0 : 0 ≤ |(t1 - t2) * 180 / Real.pi| := abs_nonneg _
  split_ifs with hc
  · constructor <;> linarith
  · constructor <;> linarith

/-- C7: for present points, `calculateAngle` always returns a value in
`[0, 180]` degrees, and it is symmetric under swapping its first and third
arguments. -/
theorem calculateAngle_range_and_symm (a b c : Pt) :
    (0 ≤ PoseAnalysis.calculateAngle (some a) (some b) (some c)
      ∧ PoseAnalysis.calculateAngle (some a) (some b) (some c) ≤ 180)
    ∧ PoseAnalysis.calculateAngle (some a) (some b) (some c)
        = PoseAnalysis.calculateAngle (some c) (some b) (some a) := by
  have harg := fun (z : Complex) => And.intro (Complex.neg_pi_lt_arg z) (Complex.arg_le_pi z)
  constructor
  · show (0 ≤ _ ∧ _ ≤ 180)
    simpa [PoseAnalysis.calculateAngle, atan2] using
      angleCore_bounds (Complex.arg ⟨c.x - b.x, c.y - b.y⟩) (Complex.arg ⟨a.x - b.x, a.y - b.y⟩)
        (harg _).1 (harg _).2 (harg _).1 (harg _).2
  · show (if _ then _ else _) = (if _ then _ else _)
    have hneg : (atan2 (a.y - b.y) (a.x - b.x) - atan2 (c.y - b.y) (c.x - b.x)) * 180 / Real.pi
        = -((atan2 (c.y - b.y) (c.x - b.x) - atan2 (a.y - b.y) (a.x - b.x)) * 180 / Real.pi) := by
      ring
    simp only [PoseAnalysis.calculateAngle, hneg, abs_neg]

/-- C8 (counterexample to the claim as stated): the rep-counting copy of the
angle routine returns the sentinel `180`, not `0`, when an input point is
missing. -/
theorem repCounting_calculateAngle_null_sentinel_180 :
    RepCounting.calculateAngle none (some ⟨0, 0⟩) (some ⟨1, 1⟩) = 180
    ∧ (180 : ℝ) ≠ 0 := by
  refine ⟨rfl, by norm_num⟩

/-- C8 (amended): with any input point missing, the pose-analysis angle
routine returns the sentinel `0` and the rep-counting copy returns the
sentinel `180`; neither raises an error (both are total functions). -/
theorem calculateAngle_null_sentinels (a b c : Option Pt)
    (h : a = none ∨ b = none ∨ c = none) :
    PoseAnalysis.calculateAngle a b c = 0
    ∧ RepCounting.calculateAngle a b c = 180 := by
  cases a <;> cases b <;> cases c <;> simp_all [PoseAnalysis.calculateAngle,
    RepCounting.calculateAngle]

/-- Witness for C8 (amended) at a concrete missing middle point. -/
theorem calculateAngle_null_sentinels_witness :
    PoseAnalysis.calculateAngle (some ⟨2, 3⟩) none (some ⟨1, 1⟩) = 0
    ∧ RepCounting.calculateAngle (some ⟨2, 3⟩) none (some ⟨1, 1⟩) = 180 :=
  calculateAngle_null_sentinels (some ⟨2, 3⟩) none (some ⟨1, 1⟩) (Or.inr (Or.inl rfl))

/-- C9 (counterexample to the claim as stated): on the three-point metric
progression `0, 10, 0` the code's smoothness is `50`, while
`100 − 5 × mean|second difference|` (one second difference of absolute
value `20`, so mean `20`) clamps to `0`: the code divides the jerk total by
the number of first differences (2), not by the number of second
differences (1), and rounds the result. -/
theorem calculateSmoothness_counterexample :
    calculateSmoothness
        [⟨0, 0, some 0, dPf⟩, ⟨1, 1, some 10, dPf⟩, ⟨2, 2, some 0, dPf⟩] = 50
    ∧ max (0 : ℚ) (100 - 5 * (20 / 1)) = 0
    ∧ (50 : ℚ) ≠ 0 := by
  refine ⟨by with_unfolding_all rfl, by norm_num, by norm_num⟩

/-- C9 (amended): for at least 3 valid points the smoothness score is
`round(max(0, 100 − 5 × (Σ|second differences| / (validCount − 1))))` —
the divisor is the number of first differences, one more than the number of
second differences — and for fewer than 3 valid points it is 100. -/
theorem calculateSmoothness_spec (metricProgression : List ProgPoint) :
    calculateSmoothness metricProgression =
      (let vals := (metricProgression.filter (fun p => p.value.isSome)).map
          (fun p => p.value.getD 0)
       let velocities := List.zipWith (fun b a => b - a) vals.tail vals
       if vals.length < 3 then 100
       else jsRound (max 0 (100 -
         ((List.zipWith (fun v2 v1 => |v2 - v1|) velocities.tail velocities).foldl
             (fun (a : ℚ) b => a + b) 0 / ((vals.length : ℚ) - 1)) * 5))) := by
  simp only [calculateSmoothness]
  set validPoints := metricProgression.filter (fun p => p.value.isSome) with hvp
  have hlen : (validPoints.map (fun p => p.value.getD 0)).length = validPoints.length :=
    List.length_map _ _
  rw [hlen]
  by_cases h3 : validPoints.length < 3
  · rw [if_pos h3, if_pos h3]
  · rw [if_neg h3, if_neg h3]
    have hvl : (List.zipWith (fun b a => b - a)
        (validPoints.map (fun p => p.value.getD 0)).tail
        (validPoints.map (fun p => p.value.getD 0))).length
        = validPoints.length - 1 := by
      rw [List.length_zipWith, List.length_tail, hlen]
      omega
    rw [hvl]
    rw [Nat.cast_sub (by omega : 1 ≤ validPoints.length), Nat.cast_one]

end FormCorrector
